import Mathlib

/-!
Verification of the Script Synthesis & Caching Engine of `src-tauri/src/llm.rs`
(with `escape_for_dsl` from `src-tauri/src/tagui.rs`).

The Rust code is shallowly embedded as executable Lean functions.  Conventions:

* Rust `&str` / `String` become Lean `String`; where the source manipulates
  byte offsets the strings involved are scanned at ASCII positions only
  (attribute patterns, the quote character, `>` and `<`), so a `List Char`
  scan is an exact model.
* `str::len` (UTF-8 byte count) is modelled by `rustLen`, `str::trim` by
  `rustTrim` (Lean's `Char.isWhitespace` covers space, tab, CR and LF; the
  source never feeds exotic Unicode whitespace to `trim`), `str::lines` by
  `rustLines`.
* `serde_json::Value` is modelled by `JsonValue`; objects carry their fields
  as an association list and key iteration follows `serde_json`'s default
  `BTreeMap` order (sorted, duplicate-free), computed by `jsonKeys`.
* `std::collections::HashMap` (the analyzer's element inventory) is an
  insertion-ordered association list; `HashMap::entry(..).or_insert_with(..)
  .extend(..)` is `hmExtend`.  Rust leaves `HashMap` iteration order
  unspecified; the model fixes it to first-insertion order.
* The database-backed cache (`sqlx` + retries) is modelled as a pure
  key/value store; transient I/O failures and row expiry are backend
  behaviour outside this repository.  The orchestrator additionally returns
  the list of cache events (key derivation, get, put) it performed, so that
  "no cache interaction" claims are statements about that list.
* `std::collections::hash_map::DefaultHasher` (SipHash-1-3 with zero keys),
  which lives in the Rust standard library and not in this repository, is
  implemented bit-exactly by `sipHash13`; `Hash for str` feeds the UTF-8
  bytes followed by a `0xff` terminator byte.
-/

/-! ## String utilities modelling Rust `str` primitives -/

/-- UTF-8 encoding of one scalar value, per RFC 3629. -/
def charUtf8 (c : Char) : List Nat :=
  let n := c.toNat
  if n < 128 then [n]
  else if n < 2048 then [192 + n / 64, 128 + n % 64]
  else if n < 65536 then [224 + n / 4096, 128 + (n / 64) % 64, 128 + n % 64]
  else [240 + n / 262144, 128 + (n / 4096) % 64, 128 + (n / 64) % 64, 128 + n % 64]

/-- UTF-8 bytes of a string: the stream `Hasher::write` receives and the
units `str::len` counts. -/
def utf8Bytes (s : String) : List Nat :=
  s.data.foldr (fun c acc => charUtf8 c ++ acc) []

/-- Model of Rust `str::len` (UTF-8 byte length). -/
def rustLen (s : String) : Nat := (utf8Bytes s).length

/-- Trim whitespace from both ends of a character list. -/
def trimChars (l : List Char) : List Char :=
  ((l.dropWhile Char.isWhitespace).reverse.dropWhile Char.isWhitespace).reverse

/-- Model of Rust `str::trim`. -/
def rustTrim (s : String) : String := ⟨trimChars s.data⟩

/-- Substring occurrence on character lists (`str::contains` with a string
pattern). -/
def listContainsSub (pat : List Char) : List Char → Bool
  | [] => pat.isEmpty
  | c :: rest => pat.isPrefixOf (c :: rest) || listContainsSub pat rest

/-- Model of Rust `str::contains` for string patterns. -/
def strContains (s pat : String) : Bool := listContainsSub pat.data s.data

/-- Number of positions at which `pat` starts in the list.  For patterns with
no self-overlap (the source only counts `"<input"`) this equals Rust's
non-overlapping `str::matches(pat).count()`. -/
def countOccs (pat : List Char) : List Char → Nat
  | [] => 0
  | c :: rest => (if pat.isPrefixOf (c :: rest) then 1 else 0) + countOccs pat rest

/-- Split a character list at every `'\n'`. -/
def splitNl : List Char → List (List Char)
  | [] => [[]]
  | c :: rest =>
    if c = '\n' then [] :: splitNl rest
    else
      match splitNl rest with
      | [] => [[c]]
      | l :: ls => (c :: l) :: ls

/-- Model of Rust `str::lines`: split on `'\n'`, drop a final empty segment,
strip one trailing `'\r'` per line. -/
def rustLines (s : String) : List String :=
  let parts := splitNl s.data
  let parts := if parts.getLast? = some [] then parts.dropLast else parts
  parts.map fun l => ⟨if l.getLast? = some '\r' then l.dropLast else l⟩

/-- Replace every occurrence of the character `c` by `rep` (the source only
calls `str::replace` with single-character patterns). -/
def replaceChar (c : Char) (rep : List Char) : List Char → List Char
  | [] => []
  | x :: rest => (if x = c then rep else [x]) ++ replaceChar c rep rest

/-- Model of Rust `str::to_lowercase` (ASCII-exact; the source lowercases
button captions only). -/
def lowerStr (s : String) : String := ⟨s.data.map Char.toLower⟩

/-- Join a list of strings with a separator (`[String]::join`). -/
def joinWith (sep : String) : List String → String
  | [] => ""
  | [x] => x
  | x :: y :: rest => x ++ sep ++ joinWith sep (y :: rest)

/-! ## `serde_json::Value` model -/

/-- Model of `serde_json::Value`.  Numbers are irrelevant to the code under
study and carried as integers. -/
inductive JsonValue where
  | null : JsonValue
  | bool (b : Bool) : JsonValue
  | num (n : Int) : JsonValue
  | str (s : String) : JsonValue
  | arr (items : List JsonValue) : JsonValue
  | obj (fields : List (String × JsonValue)) : JsonValue

/-- Model of `Value::get(key)` on an object (first binding wins; `serde_json` maps
hold each key once). -/
def jGet (v : JsonValue) (k : String) : Option JsonValue :=
  match v with
  | .obj fields => List.lookup k fields
  | _ => none

/-- Model of `Value::as_str`. -/
def jAsStr : JsonValue → Option String
  | .str s => some s
  | _ => none

/-- Model of `Value::is_object`. -/
def jIsObject : JsonValue → Bool
  | .obj _ => true
  | _ => false

/-- Lexicographic (code-point, equivalently UTF-8 byte) order on character
lists: the order of Rust's `Ord for String` used by `BTreeMap`. -/
def charListLt : List Char → List Char → Bool
  | [], [] => false
  | [], _ :: _ => true
  | _ :: _, [] => false
  | a :: as, b :: bs =>
    if a.toNat < b.toNat then true
    else if b.toNat < a.toNat then false
    else charListLt as bs

/-- String order (see `charListLt`). -/
def strLt (a b : String) : Bool := charListLt a.data b.data

/-- Insert a key into a sorted duplicate-free list of keys. -/
def insertKey (k : String) : List String → List String
  | [] => [k]
  | x :: rest =>
    if strLt k x then k :: x :: rest
    else if k = x then x :: rest
    else x :: insertKey k rest

/-- The keys of a JSON object in `serde_json`'s default `BTreeMap` iteration
order (sorted, duplicate-free); `[]` for non-objects, modelling
`as_object().map(|obj| obj.keys()..).unwrap_or_default()`. -/
def jsonKeys : JsonValue → List String
  | .obj fields => (fields.map Prod.fst).foldl (fun acc k => insertKey k acc) []
  | _ => []

/-! ## `DefaultHasher` (SipHash-1-3, zero keys) -/

/-- The modulus 2^64 of the hasher's word arithmetic. -/
def M64 : Nat := 18446744073709551616

/-- Left rotation, by `r` bits, of a 64-bit value `x < 2^64`. -/
def rotl64 (x r : Nat) : Nat := (x % 2 ^ (64 - r)) * 2 ^ r + x / 2 ^ (64 - r)

/-- SipHash internal state. -/
structure SipState where
  v0 : Nat
  v1 : Nat
  v2 : Nat
  v3 : Nat

/-- One SipHash round. -/
def sipRound (s : SipState) : SipState :=
  let v0 := (s.v0 + s.v1) % M64
  let v1 := rotl64 s.v1 13
  let v1 := v1 ^^^ v0
  let v0 := rotl64 v0 32
  let v2 := (s.v2 + s.v3) % M64
  let v3 := rotl64 s.v3 16
  let v3 := v3 ^^^ v2
  let v0 := (v0 + v3) % M64
  let v3 := rotl64 v3 21
  let v3 := v3 ^^^ v0
  let v2 := (v2 + v1) % M64
  let v1 := rotl64 v1 17
  let v1 := v1 ^^^ v2
  let v2 := rotl64 v2 32
  ⟨v0, v1, v2, v3⟩

/-- Absorb one 64-bit message word (SipHash-1-3: one round per word). -/
def sipCompress (s : SipState) (m : Nat) : SipState :=
  let s := { s with v3 := s.v3 ^^^ m }
  let s := sipRound s
  { s with v0 := s.v0 ^^^ m }

/-- Split a byte list into full 8-byte blocks and a remainder. -/
def chunk8 : List Nat → List (List Nat) × List Nat
  | a :: b :: c :: d :: e :: f :: g :: h :: rest =>
    let (blocks, tail) := chunk8 rest
    ([a, b, c, d, e, f, g, h] :: blocks, tail)
  | rest => ([], rest)

/-- Little-endian value of at most 8 bytes. -/
def toLe64 (bytes : List Nat) : Nat := bytes.foldr (fun b acc => b + 256 * acc) 0

/-- SipHash-1-3 with key `(0, 0)`: the algorithm of
`std::collections::hash_map::DefaultHasher::new()` (standard-library code,
not part of this repository). -/
def sipHash13 (msg : List Nat) : Nat :=
  let st : SipState :=
    ⟨0x736f6d6570736575, 0x646f72616e646f6d, 0x6c7967656e657261, 0x7465646279746573⟩
  let (blocks, tail) := chunk8 msg
  let st := blocks.foldl (fun st bl => sipCompress st (toLe64 bl)) st
  let last := (msg.length % 256) * 2 ^ 56 + toLe64 tail
  let st := sipCompress st last
  let st := { st with v2 := st.v2 ^^^ 0xff }
  let st := sipRound (sipRound (sipRound st))
  st.v0 ^^^ st.v1 ^^^ st.v2 ^^^ st.v3

/-- Lowercase hexadecimal rendering of a hash (`format!("{:x}", ..)`). -/
def hexStr (n : Nat) : String := ⟨Nat.toDigits 16 n⟩

/-! ## `tagui.rs`: DSL escaping -/

/-- Model of `tagui.rs` `escape_for_dsl`: double backslashes, then escape double
quotes (`input.replace('\\', "\\\\").replace('\"', "\\\"")`). -/
def escape_for_dsl (input : String) : String :=
  ⟨replaceChar '"' ['\\', '"'] (replaceChar '\\' ['\\', '\\'] input.data)⟩

/-! ## `llm.rs`: attribute extraction and the form analyzer -/

/-- Drop everything up to and including the first occurrence of `pat`
(`str::find` + slicing past the pattern); `none` when `pat` is absent. -/
def dropAfterSub (pat : List Char) : List Char → Option (List Char)
  | [] => if pat.isEmpty then some [] else none
  | c :: rest =>
    if pat.isPrefixOf (c :: rest) then some ((c :: rest).drop pat.length)
    else dropAfterSub pat rest

/-- The characters strictly before the first occurrence of `ch`; `none` when
`ch` is absent. -/
def takeBefore (ch : Char) : List Char → Option (List Char)
  | [] => none
  | c :: rest => if c = ch then some [] else (takeBefore ch rest).map (c :: ·)

/-- The characters strictly after the first occurrence of `ch`; `none` when
`ch` is absent. -/
def takeAfterChar (ch : Char) : List Char → Option (List Char)
  | [] => none
  | c :: rest => if c = ch then some rest else takeAfterChar ch rest

/-- Model of `FormAnalyzer::extract_attribute`: the text between `attr="` and the next
`"`, searching the first occurrence only. -/
def extract_attribute (line : String) (attr : String) : Option String :=
  match dropAfterSub (attr ++ "=\"").data line.data with
  | some rest => (takeBefore '"' rest).map fun cs => ⟨cs⟩
  | none => none

/-- Model of `FormAnalyzer::extract_text_content`: the trimmed text between the first
`>` and the following `<`, when non-empty. -/
def extract_text_content (line : String) : Option String :=
  match takeAfterChar '>' line.data with
  | some rest =>
    match takeBefore '<' rest with
    | some content =>
      let t := trimChars content
      if t.isEmpty then none else some ⟨t⟩
    | none => none
  | none => none

/-- The analyzer's element inventory: `HashMap<String, Vec<String>>` as an
insertion-ordered association list. -/
abbrev ElementMap := List (String × List String)

/-- Model of `HashMap::get`. -/
def hmGet (m : ElementMap) (k : String) : Option (List String) := List.lookup k m

/-- Model of `HashMap::entry(k).or_insert_with(Vec::new).extend(vs)`: extend the
bucket of `k`, creating it (possibly empty) when absent. -/
def hmExtend (m : ElementMap) (k : String) (vs : List String) : ElementMap :=
  match m with
  | [] => [(k, vs)]
  | (k', vs') :: rest =>
    if k' = k then (k', vs' ++ vs) :: rest else (k', vs') :: hmExtend rest k vs

/-- Model of `FormAnalyzer::parse_input_element`: file `#id`, `[name="n"]`, `.class`
selectors under the input's `type` (default `"text"`). -/
def parse_input_element (elements : ElementMap) (line : String) : ElementMap :=
  let input_type := (extract_attribute line "type").getD "text"
  let id := extract_attribute line "id"
  let name := extract_attribute line "name"
  let cls := extract_attribute line "class"
  let selectors :=
    (match id with | some i => ["#" ++ i] | none => []) ++
    (match name with | some n => ["[name=\"" ++ n ++ "\"]"] | none => []) ++
    (match cls with | some c => ["." ++ c] | none => [])
  hmExtend elements input_type selectors

/-- Model of `FormAnalyzer::parse_button_element`: classify the button by its caption
(submit / login / accept / button) and file `#id`, `.class` selectors under
that role. -/
def parse_button_element (elements : ElementMap) (line : String) : ElementMap :=
  let id := extract_attribute line "id"
  let cls := extract_attribute line "class"
  let text_content := extract_text_content line
  let selectors :=
    (match id with | some i => ["#" ++ i] | none => []) ++
    (match cls with | some c => ["." ++ c] | none => [])
  let button_type :=
    match text_content with
    | some text =>
      let text_lower := lowerStr text
      if strContains text_lower "submit" || strContains text_lower "apply" ||
         strContains text_lower "send" then "submit"
      else if strContains text_lower "login" || strContains text_lower "sign in" then "login"
      else if strContains text_lower "accept" || strContains text_lower "agree" then "accept"
      else "button"
    | none => "button"
  hmExtend elements button_type selectors

/-- Model of `FormAnalyzer::parse_select_element`: file `#id`, `[name="n"]` selectors
under `"select"`. -/
def parse_select_element (elements : ElementMap) (line : String) : ElementMap :=
  let id := extract_attribute line "id"
  let name := extract_attribute line "name"
  let selectors :=
    (match id with | some i => ["#" ++ i] | none => []) ++
    (match name with | some n => ["[name=\"" ++ n ++ "\"]"] | none => [])
  hmExtend elements "select" selectors

/-- Model of `FormAnalyzer::analyze_elements`: classify each line of the HTML.  (The
`<button>` arm's `line.contains("<input") && line.contains("type=\"submit\"")`
disjunct is dead code: any `<input` line is caught by the first arm.) -/
def analyze_elements (html : String) : ElementMap :=
  (rustLines html).foldl
    (fun elements line =>
      if strContains line "<input" then parse_input_element elements line
      else if strContains line "<button" ||
              (strContains line "<input" && strContains line "type=\"submit\"") then
        parse_button_element elements line
      else if strContains line "<select" then parse_select_element elements line
      else elements)
    []

/-- Model of `FormAnalyzer`: the raw HTML plus the element inventory built at
construction. -/
structure FormAnalyzer where
  html : String
  elements : ElementMap

/-- Model of `FormAnalyzer::new`. -/
def FormAnalyzer.new (html : String) : FormAnalyzer :=
  ⟨html, analyze_elements html⟩

/-- Model of `FormAnalyzer::get_elements_by_type`: the bucket, or `[]` when absent. -/
def get_elements_by_type (a : FormAnalyzer) (element_type : String) : List String :=
  (hmGet a.elements element_type).getD []

/-! ## `llm.rs`: sequence generators and classification -/

/-- Model of `generate_login_sequence` (`llm.rs` lines 450-493): requires a text/email
selector and a password selector; types the email (preferred) or username,
then the password, then clicks a login-classified button when one exists. -/
def generate_login_sequence (analyzer : FormAnalyzer) (user_data : JsonValue) :
    Option (List String) :=
  let username_selectors := get_elements_by_type analyzer "text"
  let email_selectors := get_elements_by_type analyzer "email"
  let username_field :=
    match username_selectors.head? with
    | some u => some u
    | none => email_selectors.head?
  let password_selectors := get_elements_by_type analyzer "password"
  let password_field := password_selectors.head?
  match username_field, password_field with
  | some username_sel, some password_sel =>
    let a1 :=
      match (jGet user_data "email").bind jAsStr with
      | some email =>
        if email = "" then []
        else ["type \"" ++ username_sel ++ "\" \"" ++ escape_for_dsl email ++ "\""]
      | none =>
        match (jGet user_data "username").bind jAsStr with
        | some username =>
          if username = "" then []
          else ["type \"" ++ username_sel ++ "\" \"" ++ escape_for_dsl username ++ "\""]
        | none => []
    let a2 :=
      match (jGet user_data "password").bind jAsStr with
      | some password =>
        if password = "" then []
        else ["type \"" ++ password_sel ++ "\" \"" ++ escape_for_dsl password ++ "\""]
      | none => []
    let a3 :=
      match (hmGet analyzer.elements "login").bind List.head? with
      | some selector => ["click \"" ++ selector ++ "\""]
      | none => []
    some (a1 ++ a2 ++ a3)
  | _, _ => none

/-- Model of `is_complex_form` (`llm.rs` lines 564-577): at least 2 of the seven
listed indicators hold. -/
def is_complex_form (html : String) : Bool :=
  let complexity_indicators : List Bool :=
    [strContains html "class=\"complex",
     strContains html "data-step=",
     strContains html "multi-step",
     decide (5 < countOccs "<input".data html.data),
     strContains html "javascript:",
     strContains html "onclick=",
     strContains html "data-validation="]
  decide (2 ≤ (complexity_indicators.filter (fun b => b)).length)

/-! ## `llm.rs`: fallback scripts, validator, cache key -/

/-- Model of `generate_basic_fallback_script` (`llm.rs` lines 63-65). -/
def generate_basic_fallback_script (_html : String) (_user_data : JsonValue) : String :=
  "// Basic fallback\nwait 3\nclick \"Continue\" if present\nwait 2\n"

/-- Model of `generate_emergency_fallback_script` (`llm.rs` lines 67-69). -/
def generate_emergency_fallback_script (_html : String) (_user_data : JsonValue) : String :=
  "wait 5\n// Emergency fallback - manual intervention may be required\n"

/-- Model of `validate_generated_script` (`llm.rs` lines 71-73):
`!script.trim().is_empty() && script.len() > 5` — the length tested is the
*untrimmed* byte length. -/
def validate_generated_script (script : String) : Bool :=
  !(rustTrim script == "") && decide (5 < rustLen script)

/-- Model of `basic_navigation_script` (`llm.rs` lines 233-246): a fixed raw string,
trimmed. -/
def basic_navigation_script : String :=
  rustTrim "\n// Basic navigation script\nwait 3\nclick \"Accept\" if present\nclick \"Login\" if present\nwait 2\n"

/-- The structural HTML digest inside `create_cache_key` (`llm.rs` lines
143-153): keep the lines whose trimmed text contains one of the structural
keywords, concatenated in order. -/
def html_signature (html : String) : String :=
  joinWith ""
    ((rustLines html).filter fun line =>
      let trimmed := rustTrim line
      strContains trimmed "<input" || strContains trimmed "<button" ||
      strContains trimmed "<form" || strContains trimmed "<select" ||
      strContains trimmed "type=" || strContains trimmed "id=" ||
      strContains trimmed "name=" || strContains trimmed "class=")

/-- Model of `create_cache_key` (`llm.rs` lines 136-164): hash the structural digest,
then the comma-joined user-data key names (values never enter), with
`DefaultHasher`; render as `dsl_<hex>`.  Each `String::hash` feeds the UTF-8
bytes followed by a `0xff` terminator. -/
def create_cache_key (html : String) (user_data : JsonValue) : String :=
  let signature := html_signature html
  let user_keys := jsonKeys user_data
  let stream :=
    utf8Bytes signature ++ [255] ++ utf8Bytes (joinWith "," user_keys) ++ [255]
  "dsl_" ++ hexStr (sipHash13 stream)

/-! ## `llm.rs`: the tiered synthesis chain -/

/-- The comment chunk the enhanced tier emits for one inventory entry
(`llm.rs` lines 216-223): a comment for the keys literally equal to
`"input"`/`"button"`/`"select"`, nothing otherwise. -/
def enhancedComment (kv : String × List String) : String :=
  if kv.fst = "input" then "// Input field detected\n"
  else if kv.fst = "button" then "// Button detected\n"
  else if kv.fst = "select" then "// Select field detected\n"
  else ""

/-- The script the enhanced tier builds when its per-call
`HashMap<String, Vec<String>>` yields the inventory entries in the order
`entries`.  Rust leaves `HashMap` iteration order unspecified and it varies
between map instances, so a real execution produces
`enhanced_script_for entries` for **some** permutation `entries` of the
inventory; the order is the explicit parameter here. -/
def enhanced_script_for (entries : ElementMap) : String :=
  (entries.foldl (fun script kv => script ++ enhancedComment kv) "wait 2\n") ++ "wait 1\n"

/-- Model of `generate_enhanced_form_script` (`llm.rs` lines 208-227): a wait, one
comment per inventory key literally equal to `"input"`/`"button"`/`"select"`,
a final wait; always `Ok`.  This is the instance of `enhanced_script_for` at
the inventory's insertion order; claims other than the determinism claim only
reach it on inventories with at most one comment-triggering key, where every
iteration order gives the same script. -/
def generate_enhanced_form_script (html : String) (_user_data : JsonValue) :
    Except String String :=
  .ok (enhanced_script_for (FormAnalyzer.new html).elements)

/-- Model of `generate_simple_form_script` (`llm.rs` lines 229-231). -/
def generate_simple_form_script (_html : String) (_user_data : JsonValue) :
    Except String String :=
  .ok "wait 3\nclick \"Submit\" if present\nwait 2\n"

/-- Model of `generate_script_with_comprehensive_fallbacks` (`llm.rs` lines 189-206):
first non-empty result of enhanced analysis, simple form parsing, basic
navigation. -/
def generate_script_with_comprehensive_fallbacks (html : String)
    (user_data : JsonValue) : Except String String :=
  match generate_enhanced_form_script html user_data with
  | .ok script =>
    if rustTrim script = "" then
      match generate_simple_form_script html user_data with
      | .ok script2 =>
        if rustTrim script2 = "" then .ok basic_navigation_script else .ok script2
      | .error _ => .ok basic_navigation_script
    else .ok script
  | .error _ =>
    match generate_simple_form_script html user_data with
    | .ok script2 =>
      if rustTrim script2 = "" then .ok basic_navigation_script else .ok script2
    | .error _ => .ok basic_navigation_script

/-! ## `llm.rs`: the orchestrator with an instrumented cache -/

/-- One observable cache interaction of the orchestrator. -/
inductive CacheEv where
  | derive (key : String) : CacheEv
  | get (key : String) : CacheEv
  | put (key : String) (script : String) : CacheEv
deriving DecidableEq

/-- The `dsl_cache` table as a pure key → script store (expiry and transient
I/O failures are backend behaviour outside this repository). -/
abbrev Store := List (String × String)

/-- Cache lookup (`get_cached_dsl_script_with_retry` without the I/O). -/
def storeGet (pool : Store) (cache_key : String) : Option String :=
  List.lookup cache_key pool

/-- Cache upsert (`cache_dsl_script_with_retry` without the I/O). -/
def storePut (pool : Store) (cache_key script : String) : Store :=
  match pool with
  | [] => [(cache_key, script)]
  | (k, s) :: rest =>
    if k = cache_key then (cache_key, script) :: rest
    else (k, s) :: storePut rest cache_key script

/-- Result of one orchestrator call: the script, the cache events performed
(in order) and the resulting store. -/
structure GenResult where
  script : String
  events : List CacheEv
  pool : Option Store
deriving DecidableEq

/-- Model of `llm.rs` lines 104-118: the generation step of the orchestrator — run the
comprehensive-fallback chain, substitute the basic fallback for an empty
result and the emergency fallback for an error. -/
def fresh_script (html : String) (user_data : JsonValue) : String :=
  match generate_script_with_comprehensive_fallbacks html user_data with
  | .ok generated_script =>
    if rustTrim generated_script = "" then generate_basic_fallback_script html user_data
    else generated_script
  | .error _ => generate_emergency_fallback_script html user_data

/-- The comprehensive-fallback chain (`llm.rs` lines 189-206) when the
enhanced tier's per-call `HashMap` yields the inventory entries in the order
`entries`: the same control flow as
`generate_script_with_comprehensive_fallbacks`, with the enhanced tier's
(infallible) result written for the given iteration order.
`generate_script_with_comprehensive_fallbacks html u` is the instance at the
inventory's insertion order. -/
def generate_script_with_comprehensive_fallbacks_for (html : String)
    (user_data : JsonValue) (entries : ElementMap) : Except String String :=
  let script := enhanced_script_for entries
  if rustTrim script = "" then
    match generate_simple_form_script html user_data with
    | .ok script2 =>
      if rustTrim script2 = "" then .ok basic_navigation_script else .ok script2
    | .error _ => .ok basic_navigation_script
  else .ok script

/-- The generation step (`llm.rs` lines 104-118) when the enhanced tier's
`HashMap` yields the inventory entries in the order `entries`; `fresh_script`
is the instance at the inventory's insertion order. -/
def fresh_script_for (html : String) (user_data : JsonValue)
    (entries : ElementMap) : String :=
  match generate_script_with_comprehensive_fallbacks_for html user_data entries with
  | .ok generated_script =>
    if rustTrim generated_script = "" then generate_basic_fallback_script html user_data
    else generated_script
  | .error _ => generate_emergency_fallback_script html user_data

/-- Model of `generate_dsl_script_with_cache` (`llm.rs` lines 75-134).  The source
tests `db_pool` twice (`if let Some(pool)` around the get and again around
the put); since the generation step between them never touches the pool, the
two tests are rendered as one outer match.  The `user_data.is_object()` test
only emits a log line and is omitted. -/
def generate_dsl_script_with_cache (html : String) (user_data : JsonValue)
    (db_pool : Option Store) : GenResult :=
  if rustTrim html = "" then
    ⟨basic_navigation_script, [], db_pool⟩
  else
    let cache_key := create_cache_key html user_data
    match db_pool with
    | some pool =>
      match storeGet pool cache_key with
      | some cached_script =>
        ⟨cached_script, [.derive cache_key, .get cache_key], some pool⟩
      | none =>
        let script := fresh_script html user_data
        if validate_generated_script script then
          ⟨script, [.derive cache_key, .get cache_key, .put cache_key script],
            some (storePut pool cache_key script)⟩
        else
          ⟨script, [.derive cache_key, .get cache_key], some pool⟩
    | none =>
      let script := fresh_script html user_data
      ⟨script, [.derive cache_key], none⟩

/-! ## `llm.rs`: the simple DSL generator exercised by the module's tests -/

/-- The presence test of `generate_simple_dsl`:
`html.contains(&selector.replace("#", "id=\"").replace("[", "").replace("]", ""))
 || html.contains(selector)`. -/
def selPresent (html selector : String) : Bool :=
  strContains html
    ⟨replaceChar ']' [] (replaceChar '[' []
      (replaceChar '#' ("id=\"".data) selector.data))⟩ ||
  strContains html selector

/-- First selector of the list present in the HTML (the `for .. break`
loops of `generate_simple_dsl`). -/
def findFirstSel (html : String) : List String → Option String
  | [] => none
  | s :: rest => if selPresent html s then some s else findFirstSel html rest

/-- Model of `generate_simple_dsl` (`llm.rs` lines 763-814): map well-known user-data
keys onto fixed candidate selectors by substring presence, then click the
first submit-like selector found. -/
def generate_simple_dsl (html : String) (user_data : JsonValue) : String :=
  let script :=
    if strContains html "id=\"login-btn\"" || strContains html "class=\"login" then
      "click \"#login-btn\"\n"
    else ""
  let field_mappings : List (String × List String) :=
    [("username", ["#username", "#user", "[name=\"username\"]", "[name=\"email\"]"]),
     ("password", ["#password", "#pass", "[name=\"password\"]"]),
     ("fullname", ["#fullname", "#full-name", "#name", "[name=\"fullname\"]", "[name=\"name\"]"]),
     ("email", ["#email", "[name=\"email\"]", "[type=\"email\"]"]),
     ("phone", ["#phone", "#telephone", "[name=\"phone\"]", "[type=\"tel\"]"]),
     ("cv_path", ["#cv-upload", "#resume", "#cv", "[type=\"file\"]"])]
  let script :=
    field_mappings.foldl
      (fun script kv =>
        match (jGet user_data kv.fst).bind jAsStr with
        | some value =>
          if value = "" then script
          else
            match findFirstSel html kv.snd with
            | some selector =>
              let escaped_value := escape_for_dsl value
              if kv.fst = "cv_path" then
                script ++ "upload \"" ++ selector ++ "\" \"" ++ escaped_value ++ "\"\n"
              else
                script ++ "type \"" ++ selector ++ "\" \"" ++ escaped_value ++ "\"\n"
            | none => script
        | none => script)
      script
  let submit_selectors :=
    ["#submit", "#apply", "#send", "#login", "#apply-submit",
     "[type=\"submit\"]", "button[type=\"submit\"]"]
  match findFirstSel html submit_selectors with
  | some selector => script ++ "click \"" ++ selector ++ "\"\n"
  | none => script

/-! ## Concrete inputs used by the claims -/

/-- The three-line login form of the spec's concrete scenario (and of the
module's own `test_simple_dsl_generation`). -/
def c1Html : String :=
  "<input id=\"username\" type=\"text\">\n<input id=\"password\" type=\"password\">\n<button id=\"submit\">Login</button>"

/-- The user profile of the spec's concrete scenario. -/
def c1User : JsonValue :=
  .obj [("username", .str "john.doe"), ("password", .str "secret123")]

/-- A profile with fields `password`, `username` and one set of values. -/
def c4UserA : JsonValue :=
  .obj [("password", .str "secret123"), ("username", .str "john.doe")]

/-- A profile with the same field names as `c4UserA` (listed in the other
order) and entirely different values. -/
def c4UserB : JsonValue :=
  .obj [("username", .str "someone.else"), ("password", .str "hunter2")]

/-- A page whose inventory holds two comment-triggering keys (`button` and
`select`), so the enhanced tier's comment lines depend on the inventory
iteration order. -/
def c3Html : String := "<button>go</button>\n<select id=\"s\"></select>"

/-- The inventory of `c3Html` in the opposite iteration order — an equally
admissible order for a fresh Rust `HashMap` holding the same entries. -/
def c3Entries : ElementMap := [("select", ["#s"]), ("button", [])]

/-- A one-input page (non-blank HTML) used to exercise a cache write. -/
def c6Html : String := "<input id=\"a\">"

/-- An inventory with email, password and login-button buckets. -/
def c8InvA : FormAnalyzer :=
  ⟨"", [("email", ["#email"]), ("password", ["#pw"]), ("login", ["#loginBtn"])]⟩

/-- An inventory with a password bucket but neither text nor email bucket. -/
def c8InvB : FormAnalyzer := ⟨"", [("password", ["#pw"])]⟩

/-- A profile supplying email and password values. -/
def c8User : JsonValue := .obj [("email", .str "a@b.c"), ("password", .str "pw1234")]

/-- HTML whose only complexity indicators are the two inline-JavaScript
markers `javascript:` and `onclick=`. -/
def c9JsHtml : String := "<a href=\"javascript:alert(1)\" onclick=\"track()\">start</a>"

/-- The spec's complexity scenario: seven `<input` occurrences, one
`data-validation=` attribute, one `onclick=` attribute. -/
def c9ScenarioHtml : String :=
  "<form onclick=\"validateStep()\">\n<input type=\"text\" data-validation=\"required\">\n<input type=\"text\">\n<input type=\"text\">\n<input type=\"text\">\n<input type=\"text\">\n<input type=\"text\">\n<input type=\"text\">\n</form>"

/-- Formalisation of claim C9's wording (the spec's grouping): a page is
complex iff at least 2 of these four signals hold — a complexity-flagged
class/attribute, more than 5 `<input` occurrences, an inline-JavaScript
marker (`javascript:` or `onclick=`), an explicit validation attribute.
Written from the claim, to be compared with `is_complex_form`. -/
def is_complex_form_spec (html : String) : Bool :=
  let signals : List Bool :=
    [strContains html "class=\"complex" || strContains html "data-step=" ||
       strContains html "multi-step",
     decide (5 < countOccs "<input".data html.data),
     strContains html "javascript:" || strContains html "onclick=",
     strContains html "data-validation="]
  decide (2 ≤ (signals.filter (fun b => b)).length)

/-- The amended C9 signal count: each of the seven source indicators counts
separately (`class="complex`, `data-step=`, `multi-step`, more than 5
`<input`, `javascript:`, `onclick=`, `data-validation=`). -/
def complexity_signal_count (html : String) : Nat :=
  cond (strContains html "class=\"complex") 1 0 +
  cond (strContains html "data-step=") 1 0 +
  cond (strContains html "multi-step") 1 0 +
  cond (decide (5 < countOccs "<input".data html.data)) 1 0 +
  cond (strContains html "javascript:") 1 0 +
  cond (strContains html "onclick=") 1 0 +
  cond (strContains html "data-validation=") 1 0

/-! ## Helper lemmas -/

/-- Joining with the empty separator peels off the head by append. -/
theorem joinWith_empty_cons (x : String) (l : List String) :
    joinWith "" (x :: l) = x ++ joinWith "" l := by
  cases l with
  | nil => simp [joinWith, String.append_empty]
  | cons y r => simp only [joinWith, String.append_empty]

/-- A left fold appending `f` of each element equals the accumulator
followed by the empty-separator join of the mapped list. -/
theorem foldl_append_join {α : Type} (f : α → String) :
    ∀ (l : List α) (acc : String),
      l.foldl (fun a x => a ++ f x) acc = acc ++ joinWith "" (l.map f) := by
  intro l
  induction l with
  | nil => intro acc; simp [joinWith, String.append_empty]
  | cons x xs ih =>
    intro acc
    rw [List.foldl_cons, ih (acc ++ f x), List.map_cons, joinWith_empty_cons,
      String.append_assoc]

/-- Trimming a list headed by a non-whitespace character never yields the
empty list. -/
theorem trimChars_cons_ne (c : Char) (l : List Char)
    (hc : c.isWhitespace = false) : trimChars (c :: l) ≠ [] := by
  unfold trimChars
  rw [List.dropWhile_cons, hc]
  simp only [Bool.false_eq_true, if_false]
  intro h
  rw [List.reverse_eq_nil_iff, List.dropWhile_eq_nil_iff] at h
  have := h c (by rw [List.mem_reverse]; exact List.mem_cons_self c l)
  rw [hc] at this
  exact Bool.false_ne_true this

/-- A string starting with `"wait 2\n"` does not trim to the empty string. -/
theorem rustTrim_wait2_ne (x : String) : rustTrim ("wait 2\n" ++ x) ≠ "" := by
  intro h
  have hd : trimChars (("wait 2\n" ++ x).data) = [] := congrArg String.data h
  rw [String.data_append] at hd
  have hw : ("wait 2\n" : String).data ++ x.data =
      'w' :: (['a', 'i', 't', ' ', '2', '\n'] ++ x.data) := rfl
  rw [hw] at hd
  exact trimChars_cons_ne 'w' _ (by decide) hd

/-- No string starting with `"wait 2\n"` is the emergency fallback text. -/
theorem wait2_ne_emergency (x : String) :
    "wait 2\n" ++ x ≠ "wait 5\n// Emergency fallback - manual intervention may be required\n" := by
  intro h
  have h2 : ((("wait 2\n" ++ x)).data.drop 5).head? =
      ((("wait 5\n// Emergency fallback - manual intervention may be required\n" : String)).data.drop 5).head? := by
    rw [h]
  rw [String.data_append] at h2
  have hl : ((("wait 2\n" : String).data ++ x.data).drop 5).head? = some '2' := rfl
  have hr : ((("wait 5\n// Emergency fallback - manual intervention may be required\n" : String)).data.drop 5).head? = some '5' := rfl
  rw [hl, hr] at h2
  exact absurd h2 (by decide)

/-- For every iteration order, the enhanced tier's script is the fixed
wrapper around the join of the per-entry comment chunks in that order. -/
theorem enhanced_script_for_eq (entries : ElementMap) :
    enhanced_script_for entries =
      "wait 2\n" ++ joinWith "" (entries.map enhancedComment) ++ "wait 1\n" := by
  unfold enhanced_script_for
  rw [foldl_append_join]

/-- The enhanced tier always succeeds, with a script of the form
`"wait 2\n" ++ _`. -/
theorem enhanced_shape (html : String) (user_data : JsonValue) :
    ∃ t, generate_enhanced_form_script html user_data = .ok ("wait 2\n" ++ t) := by
  refine ⟨joinWith "" ((FormAnalyzer.new html).elements.map enhancedComment) ++ "wait 1\n", ?_⟩
  have heq : generate_enhanced_form_script html user_data =
      .ok (enhanced_script_for (FormAnalyzer.new html).elements) := rfl
  rw [heq, enhanced_script_for_eq, String.append_assoc]

/-- Every branch of the comprehensive-fallback chain returns `Ok`, and the
result is a `"wait 2\n"`-prefixed enhanced script, the simple-form constant,
or the basic navigation constant. -/
theorem gswcf_shape (html : String) (user_data : JsonValue) :
    ∃ s, generate_script_with_comprehensive_fallbacks html user_data = .ok s ∧
      ((∃ t, s = "wait 2\n" ++ t) ∨
       s = "wait 3\nclick \"Submit\" if present\nwait 2\n" ∨
       s = basic_navigation_script) := by
  obtain ⟨t, ht⟩ := enhanced_shape html user_data
  unfold generate_script_with_comprehensive_fallbacks
  rw [ht]
  dsimp only [generate_simple_form_script]
  by_cases hempty : rustTrim ("wait 2\n" ++ t) = ""
  · rw [if_pos hempty, if_neg (by decide)]
    exact ⟨_, rfl, Or.inr (Or.inl rfl)⟩
  · rw [if_neg hempty]
    exact ⟨_, rfl, Or.inl ⟨t, rfl⟩⟩

/-- The generation step never produces an empty (after trimming) script. -/
theorem fresh_trim_ne (html : String) (user_data : JsonValue) :
    rustTrim (fresh_script html user_data) ≠ "" := by
  unfold fresh_script
  cases hg : generate_script_with_comprehensive_fallbacks html user_data with
  | ok g =>
    dsimp only
    by_cases he : rustTrim g = ""
    · rw [if_pos he]
      have hb : generate_basic_fallback_script html user_data =
          "// Basic fallback\nwait 3\nclick \"Continue\" if present\nwait 2\n" := rfl
      rw [hb]; decide
    · rw [if_neg he]; exact he
  | error e =>
    dsimp only
    have hb : generate_emergency_fallback_script html user_data =
        "wait 5\n// Emergency fallback - manual intervention may be required\n" := rfl
    rw [hb]; decide

/-- The generation step yields a `"wait 2\n"`-prefixed script or one of the
three constant fallbacks. -/
theorem fresh_script_shape (html : String) (user_data : JsonValue) :
    (∃ t, fresh_script html user_data = "wait 2\n" ++ t) ∨
    fresh_script html user_data = "wait 3\nclick \"Submit\" if present\nwait 2\n" ∨
    fresh_script html user_data = basic_navigation_script ∨
    fresh_script html user_data = generate_basic_fallback_script html user_data := by
  obtain ⟨s, hs, hshape⟩ := gswcf_shape html user_data
  unfold fresh_script
  rw [hs]
  dsimp only
  by_cases he : rustTrim s = ""
  · rw [if_pos he]; exact Or.inr (Or.inr (Or.inr rfl))
  · rw [if_neg he]
    rcases hshape with ⟨t, ht⟩ | h | h
    · exact Or.inl ⟨t, ht⟩
    · exact Or.inr (Or.inl h)
    · exact Or.inr (Or.inr (Or.inl h))

/-- The generation step never returns the emergency fallback text. -/
theorem fresh_ne_emergency (html : String) (user_data : JsonValue) :
    fresh_script html user_data ≠ generate_emergency_fallback_script html user_data := by
  have hem : generate_emergency_fallback_script html user_data =
      "wait 5\n// Emergency fallback - manual intervention may be required\n" := rfl
  rw [hem]
  rcases fresh_script_shape html user_data with ⟨t, ht⟩ | h | h | h
  · rw [ht]; exact wait2_ne_emergency t
  · rw [h]; decide
  · rw [h]; decide
  · rw [h]
    have hb : generate_basic_fallback_script html user_data =
        "// Basic fallback\nwait 3\nclick \"Continue\" if present\nwait 2\n" := rfl
    rw [hb]; decide

/-- A script accepted by the validator has untrimmed byte length above 5. -/
theorem validate_length (s : String) (h : validate_generated_script s = true) :
    5 < rustLen s := by
  unfold validate_generated_script at h
  exact of_decide_eq_true ((Bool.and_eq_true _ _).mp h).2

/-- The filtered length of a seven-element boolean list is the number of its
`true` entries. -/
theorem filter_length_seven (a b c d e f g : Bool) :
    ([a, b, c, d, e, f, g].filter (fun x => x)).length =
      cond a 1 0 + cond b 1 0 + cond c 1 0 + cond d 1 0 +
      cond e 1 0 + cond f 1 0 + cond g 1 0 := by
  cases a <;> cases b <;> cases c <;> cases d <;> cases e <;> cases f <;> cases g <;> rfl

/-! ## Claim theorems -/

/-- C1 (counterexample): on the three-line login form with profile
`{username: "john.doe", password: "secret123"}`, the synthesis chain
(`generate_dsl_script_with_cache` with no cache) returns `"wait 2\nwait 1\n"`
— it does **not** contain the line `type "#username" "john.doe"` (nor, a
fortiori, the other two claimed lines). -/
theorem c1_chain_missing_typed_lines :
    (generate_dsl_script_with_cache c1Html c1User none).script = "wait 2\nwait 1\n" ∧
    strContains (generate_dsl_script_with_cache c1Html c1User none).script
      "type \"#username\" \"john.doe\"" = false := by
  decide

/-- C1 (amended): on that input the synthesis chain returns only the two
wait commands; the lines `type "#username" "john.doe"`,
`type "#password" "secret123"`, `click "#submit"` (exact selectors, exact
values, in that order) are produced by `generate_simple_dsl`, the simple DSL
generator exercised by the module's own unit test. -/
theorem c1_simple_dsl_produces_lines :
    (generate_dsl_script_with_cache c1Html c1User none).script = "wait 2\nwait 1\n" ∧
    generate_simple_dsl c1Html c1User =
      "type \"#username\" \"john.doe\"\ntype \"#password\" \"secret123\"\nclick \"#submit\"\n" := by
  decide

/-- C2: for every input pair, `generate_dsl_script_with_cache` with no cache
backend returns a script whose trimmed text is non-empty. -/
theorem c2_always_nonempty_script (html : String) (user_data : JsonValue) :
    rustTrim (generate_dsl_script_with_cache html user_data none).script ≠ "" := by
  unfold generate_dsl_script_with_cache
  by_cases hb : rustTrim html = ""
  · rw [if_pos hb]; dsimp only; decide
  · rw [if_neg hb]; dsimp only; exact fresh_trim_ne html user_data

/-- C3 (counterexample): the full synthesis chain is **not**
repeated-call-deterministic.  The enhanced tier iterates a fresh
`std::collections::HashMap` per call, whose iteration order is unspecified
and varies between instances; on `c3Html` (inventory keys `button` and
`select`) two admissible iteration orders — the insertion order, which the
generation step `fresh_script` uses, and its reversal `c3Entries`, a
permutation of the same inventory — produce different script strings
(`// Button detected` and `// Select field detected` swapped). -/
theorem c3_order_counterexample :
    List.Perm c3Entries (analyze_elements c3Html) ∧
    fresh_script c3Html JsonValue.null =
      fresh_script_for c3Html JsonValue.null (analyze_elements c3Html) ∧
    fresh_script_for c3Html JsonValue.null (analyze_elements c3Html) ≠
      fresh_script_for c3Html JsonValue.null c3Entries := by
  decide

/-- C3 (amended): repeated calls to the cache-key derivation return the same
key; the synthesis chain is deterministic only up to the iteration order of
the per-call inventory `HashMap`: for every admissible order (permutation of
the inventory) the generation step returns `"wait 2\n"`, then the inventory's
comment chunks in that order, then `"wait 1\n"` — so two runs agree on the
multiset of emitted lines but may order the comment lines differently. -/
theorem c3_key_determinism_chain_up_to_order :
    (∀ (h1 h2 : String) (u1 u2 : JsonValue), h1 = h2 → u1 = u2 →
      create_cache_key h1 u1 = create_cache_key h2 u2) ∧
    (∀ (html : String) (u : JsonValue) (entries : ElementMap),
      List.Perm entries (analyze_elements html) →
      ∃ chunks : List String,
        List.Perm chunks ((analyze_elements html).map enhancedComment) ∧
        fresh_script_for html u entries =
          "wait 2\n" ++ joinWith "" chunks ++ "wait 1\n") := by
  constructor
  · intro h1 h2 u1 u2 hh hu
    subst hh; subst hu; rfl
  · intro html u entries hperm
    refine ⟨entries.map enhancedComment, hperm.map enhancedComment, ?_⟩
    have hne : rustTrim (enhanced_script_for entries) ≠ "" := by
      rw [enhanced_script_for_eq, String.append_assoc]
      exact rustTrim_wait2_ne _
    have hg : generate_script_with_comprehensive_fallbacks_for html u entries =
        .ok (enhanced_script_for entries) := by
      unfold generate_script_with_comprehensive_fallbacks_for
      dsimp only
      rw [if_neg hne]
    unfold fresh_script_for
    rw [hg]
    dsimp only
    rw [if_neg hne]
    exact enhanced_script_for_eq entries

/-- C3 witness: the amended theorem applied at concrete inputs — the key
derivation at the login form, and the chain shape at the reversed iteration
order of the `c3Html` inventory. -/
theorem c3_key_determinism_chain_up_to_order_witness :
    create_cache_key c1Html c1User = create_cache_key c1Html c1User ∧
    (∃ chunks : List String,
      List.Perm chunks ((analyze_elements c3Html).map enhancedComment) ∧
      fresh_script_for c3Html JsonValue.null c3Entries =
        "wait 2\n" ++ joinWith "" chunks ++ "wait 1\n") :=
  ⟨c3_key_determinism_chain_up_to_order.1 c1Html c1Html c1User c1User rfl rfl,
   c3_key_determinism_chain_up_to_order.2 c3Html JsonValue.null c3Entries (by decide)⟩

/-- C4: the cache key is a pure function of the structural HTML digest (the
lines containing a structural keyword) and the set of user-profile field
names — field values never influence it. -/
theorem c4_key_ignores_values (h1 h2 : String) (u1 u2 : JsonValue)
    (hsig : html_signature h1 = html_signature h2)
    (hkeys : jsonKeys u1 = jsonKeys u2) :
    create_cache_key h1 u1 = create_cache_key h2 u2 := by
  unfold create_cache_key
  rw [hsig, hkeys]

/-- C4 witness: two profiles with the same field names (in different order)
and entirely different values share the cache key on the same HTML. -/
theorem c4_key_ignores_values_witness :
    html_signature c1Html = html_signature c1Html ∧
    jsonKeys c4UserA = jsonKeys c4UserB ∧
    create_cache_key c1Html c4UserA = create_cache_key c1Html c4UserB :=
  ⟨rfl, by decide, c4_key_ignores_values c1Html c1Html c4UserA c4UserB rfl (by decide)⟩

/-- C5: on blank (whitespace-only) HTML the orchestrator returns the basic
navigation fallback verbatim and performs no cache interaction at all — no
key derivation, no get, no put — leaving any configured store untouched. -/
theorem c5_blank_html_no_cache (html : String) (user_data : JsonValue)
    (db_pool : Option Store) (hb : rustTrim html = "") :
    generate_dsl_script_with_cache html user_data db_pool =
      ⟨basic_navigation_script, [], db_pool⟩ := by
  unfold generate_dsl_script_with_cache
  rw [if_pos hb]

/-- C5 witness: a whitespace-only HTML input with a configured store. -/
theorem c5_blank_html_no_cache_witness :
    rustTrim "   \n\t " = "" ∧
    generate_dsl_script_with_cache "   \n\t " JsonValue.null (some [("k", "v")]) =
      ⟨basic_navigation_script, [], some [("k", "v")]⟩ :=
  ⟨by decide, c5_blank_html_no_cache "   \n\t " JsonValue.null (some [("k", "v")]) (by decide)⟩

/-- C6: a cache put is executed only for a script that passes the validation
gate — in particular no script of byte length ≤ 5 is ever written to the
cache, for any input, any store and any generation outcome. -/
theorem c6_cache_admission_gate (html : String) (user_data : JsonValue)
    (db_pool : Option Store) (k s : String)
    (hmem : CacheEv.put k s ∈ (generate_dsl_script_with_cache html user_data db_pool).events) :
    validate_generated_script s = true ∧ ¬ rustLen s ≤ 5 := by
  unfold generate_dsl_script_with_cache at hmem
  by_cases hb : rustTrim html = ""
  · rw [if_pos hb] at hmem
    simp at hmem
  · rw [if_neg hb] at hmem
    cases db_pool with
    | none => simp at hmem
    | some pool =>
      dsimp only at hmem
      cases hget : storeGet pool (create_cache_key html user_data) with
      | some cached => rw [hget] at hmem; simp at hmem
      | none =>
        rw [hget] at hmem
        by_cases hv : validate_generated_script (fresh_script html user_data) = true
        · rw [if_pos hv] at hmem
          simp only [GenResult.mk.injEq] at hmem
          simp only [List.mem_cons, List.mem_singleton] at hmem
          rcases hmem with h | h | h
          · exact absurd h (by simp)
          · exact absurd h (by simp)
          · rcases h with h | h
            · obtain ⟨-, hs⟩ := CacheEv.put.inj h
              subst hs
              exact ⟨hv, Nat.not_le.mpr (validate_length _ hv)⟩
            · simp at h
        · rw [if_neg hv] at hmem
          simp at hmem

/-- C6 witness: a non-blank page with an empty configured store performs a
put of the generated script, which passes the gate. -/
theorem c6_cache_admission_gate_witness :
    (CacheEv.put (create_cache_key c6Html JsonValue.null) "wait 2\nwait 1\n" ∈
      (generate_dsl_script_with_cache c6Html JsonValue.null (some [])).events) ∧
    validate_generated_script "wait 2\nwait 1\n" = true ∧
    ¬ rustLen "wait 2\nwait 1\n" ≤ 5 :=
  ⟨by decide,
   c6_cache_admission_gate c6Html JsonValue.null (some [])
     (create_cache_key c6Html JsonValue.null) "wait 2\nwait 1\n" (by decide)⟩

/-- C7: the validator accepts exactly the scripts whose trimmed text is
non-empty and whose **untrimmed** byte length exceeds 5; on `" hi \n "`
(untrimmed length 6, trimmed length 2) it returns true, settling that the
untrimmed length is the one tested. -/
theorem c7_validator_iff :
    (∀ s : String,
      validate_generated_script s = true ↔ rustTrim s ≠ "" ∧ 5 < rustLen s) ∧
    validate_generated_script " hi \n " = true ∧
    rustLen (rustTrim " hi \n ") ≤ 5 := by
  refine ⟨fun s => ?_, by decide, by decide⟩
  unfold validate_generated_script
  rw [Bool.and_eq_true, Bool.not_eq_true']
  rw [beq_eq_false_iff_ne, decide_eq_true_iff]

/-- C9 (counterexample): HTML carrying both inline-JavaScript markers
(`javascript:` and `onclick=`) and nothing else is classified complex by the
code (two of its seven indicators hold) although only one of the claim's
four grouped signals holds, so the claimed "iff" fails. -/
theorem c9_grouping_counterexample :
    is_complex_form c9JsHtml = true ∧ is_complex_form_spec c9JsHtml = false := by
  decide

set_option maxRecDepth 8192 in
/-- C9 (amended): `is_complex_form` returns true iff at least 2 of the seven
source indicators hold, **each counted separately** (`class="complex`,
`data-step=`, `multi-step`, more than 5 `<input`, `javascript:`, `onclick=`,
`data-validation=`); in particular the scenario with 7 `<input>` elements, a
`data-validation=` attribute and an `onclick=` attribute is complex. -/
theorem c9_seven_indicators :
    (∀ html, is_complex_form html = true ↔ 2 ≤ complexity_signal_count html) ∧
    is_complex_form c9ScenarioHtml = true := by
  refine ⟨fun html => ?_, by decide⟩
  dsimp only [is_complex_form, complexity_signal_count]
  rw [filter_length_seven, decide_eq_true_iff]

/-- C8: login-sequence gating.  An inventory with no text bucket and no
email bucket yields no login sequence (whatever its password bucket holds);
an inventory with non-empty email and password buckets, given a profile with
non-empty email and password values, yields exactly one `type` for the
email, one `type` for the password, and a trailing `click` exactly when a
login-classified button selector exists. -/
theorem c8_login_gating (A : FormAnalyzer) (ud : JsonValue) (e p : String) :
    (get_elements_by_type A "text" = [] ∧ get_elements_by_type A "email" = [] →
      generate_login_sequence A ud = none) ∧
    ((jGet ud "email").bind jAsStr = some e ∧ e ≠ "" ∧
     (jGet ud "password").bind jAsStr = some p ∧ p ≠ "" ∧
     get_elements_by_type A "email" ≠ [] ∧ get_elements_by_type A "password" ≠ [] →
      ∃ usel psel, generate_login_sequence A ud =
        some (("type \"" ++ usel ++ "\" \"" ++ escape_for_dsl e ++ "\"") ::
              ("type \"" ++ psel ++ "\" \"" ++ escape_for_dsl p ++ "\"") ::
              (match (hmGet A.elements "login").bind List.head? with
               | some selector => ["click \"" ++ selector ++ "\""]
               | none => []))) := by
  constructor
  · rintro ⟨ht, he⟩
    unfold generate_login_sequence
    rw [ht, he]
    simp
  · rintro ⟨hemail, hene, hpwd, hpne, hbe, hbp⟩
    obtain ⟨es, etl, hets⟩ := List.exists_cons_of_ne_nil hbe
    obtain ⟨ps, ptl, hpts⟩ := List.exists_cons_of_ne_nil hbp
    unfold generate_login_sequence
    rw [hets, hpts, hemail, hpwd]
    cases htxt : get_elements_by_type A "text" with
    | nil =>
      refine ⟨es, ps, ?_⟩
      simp [hene, hpne]
    | cons u ut =>
      refine ⟨u, ps, ?_⟩
      simp [hene, hpne]

/-- C8 witness: the gate refuses a password-only inventory and accepts an
email+password inventory with a login button. -/
theorem c8_login_gating_witness :
    generate_login_sequence c8InvB c8User = none ∧
    (∃ usel psel, generate_login_sequence c8InvA c8User =
      some (("type \"" ++ usel ++ "\" \"" ++ escape_for_dsl "a@b.c" ++ "\"") ::
            ("type \"" ++ psel ++ "\" \"" ++ escape_for_dsl "pw1234" ++ "\"") ::
            (match (hmGet c8InvA.elements "login").bind List.head? with
             | some selector => ["click \"" ++ selector ++ "\""]
             | none => []))) :=
  ⟨(c8_login_gating c8InvB c8User "a@b.c" "pw1234").1 ⟨by decide, by decide⟩,
   (c8_login_gating c8InvA c8User "a@b.c" "pw1234").2
     ⟨by decide, by decide, by decide, by decide, by decide, by decide⟩⟩

/-- C10: the comprehensive-fallback generator returns `Ok` on every input,
so the orchestrator's error branch is unreachable and the pipeline (with no
cache) never returns the emergency fallback script. -/
theorem c10_no_emergency (html : String) (user_data : JsonValue) :
    (∃ s, generate_script_with_comprehensive_fallbacks html user_data = .ok s) ∧
    (generate_dsl_script_with_cache html user_data none).script ≠
      generate_emergency_fallback_script html user_data := by
  constructor
  · obtain ⟨s, hs, -⟩ := gswcf_shape html user_data
    exact ⟨s, hs⟩
  · unfold generate_dsl_script_with_cache
    by_cases hb : rustTrim html = ""
    · rw [if_pos hb]
      dsimp only
      have hem : generate_emergency_fallback_script html user_data =
          "wait 5\n// Emergency fallback - manual intervention may be required\n" := rfl
      rw [hem]
      decide
    · rw [if_neg hb]
      dsimp only
      exact fresh_ne_emergency html user_data
